import Mathlib

/-!
A verification development for the pcos-chatbot backend diet-plan pipeline
(`utils/huggingface.py`) and its persistence routes (`routes/diet.py`).

The Python code is shallowly embedded: strings are modelled on `List Char`
with primitives that mirror the Python `str` methods used by the source
(`strip`, `split`, `replace`, `lower`, `upper`, `startswith`, `in`), Python
dicts that the parser builds incrementally are modelled as association lists
that preserve insertion order (as Python dicts do), and the places where the
Python code can raise (`KeyError` on a missing meal key) are modelled with
`Option`, `none` standing for a raised exception that the enclosing
`try/except` observes.

Source strings are ASCII, so ASCII case mapping coincides with the Python one.
Python `set` iteration order is unspecified; the embedding deduplicates
keeping the first occurrence, and theorems that depend on set contents are
stated order-insensitively (via `Finset`/membership) where that matters.
-/

/-! ## Python string primitives on `List Char` -/

/-- The whitespace characters recognised by the Python `str.strip` and `\s`. -/
def pySpace (c : Char) : Bool :=
  c == ' ' || c == '\t' || c == '\n' || c == '\r' || c == '\x0b' || c == '\x0c'

/-- `charsStartWith l p` : the list `l` begins with the pattern `p`
(Python `str.startswith`). -/
def charsStartWith : List Char → List Char → Bool
  | _, [] => true
  | [], _ :: _ => false
  | a :: as, b :: bs => a == b && charsStartWith as bs

/-- Python `str.strip()`: remove leading and trailing whitespace. -/
def pyStrip (l : List Char) : List Char :=
  ((l.dropWhile pySpace).reverse.dropWhile pySpace).reverse

/-- Python `pat in hay` substring containment. -/
def pyIn (pat : List Char) : List Char → Bool
  | [] => pat.isEmpty
  | c :: rest => charsStartWith (c :: rest) pat || pyIn pat rest

/-- Worker for `pySplit`.  The `Nat` counts separator characters still to be
consumed after a match (structural recursion on the text, so that concrete
computations reduce in the kernel).  The head of the result is the chunk
currently being built; callers cons preceding characters onto it. -/
def pySplitAux (sep : List Char) : Nat → List Char → List (List Char)
  | _ + 1, [] => [[]]
  | k + 1, _ :: rest => pySplitAux sep k rest
  | 0, [] => [[]]
  | 0, c :: rest =>
    if charsStartWith (c :: rest) sep then
      [] :: pySplitAux sep (sep.length - 1) rest
    else
      match pySplitAux sep 0 rest with
      | [] => [[c]]
      | chunk :: chunks => (c :: chunk) :: chunks

/-- Python `str.split(sep)` for a non-empty separator: split on every
occurrence, scanning left to right non-overlappingly, keeping empty
chunks. -/
def pySplit (sep l : List Char) : List (List Char) :=
  pySplitAux sep 0 l

/-- Worker for `pyReplace`; the `Nat` counts matched characters still to be
consumed (structural recursion on the text). -/
def pyReplaceAux (old new : List Char) : Nat → List Char → List Char
  | _ + 1, [] => []
  | k + 1, _ :: rest => pyReplaceAux old new k rest
  | 0, [] => []
  | 0, c :: rest =>
    if charsStartWith (c :: rest) old then
      new ++ pyReplaceAux old new (old.length - 1) rest
    else
      c :: pyReplaceAux old new 0 rest

/-- Python `str.replace(old, new)` for a non-empty `old`: replace every
(non-overlapping, leftmost-first) occurrence; the replacement text is not
rescanned. -/
def pyReplace (old new l : List Char) : List Char :=
  pyReplaceAux old new 0 l

/-- Python `str.lower()` (ASCII range, which covers all source strings). -/
def pyLowerChars (l : List Char) : List Char := l.map Char.toLower

/-- Python `str.upper()` (ASCII range, which covers all source strings). -/
def pyUpperChars (l : List Char) : List Char := l.map Char.toUpper

/-! ## `_extract_calories` (utils/huggingface.py)

`re.search` with pattern `(\d+)\s*cal` and `re.IGNORECASE`: the leftmost position at
which one-or-more digits, then optional whitespace, then `cal`
(case-insensitively) match; group 1 is the digit run, converted with `int`;
`0` when there is no match.  For this pattern the greedy digit run never has
to backtrack (a digit can match neither `\s` nor `c`), so a position matches
exactly when its maximal digit run is followed by whitespace and `cal`. -/

/-- Digit characters to the number they denote (Python `int` on a digit run). -/
def digitsToNat (ds : List Char) : Nat :=
  ds.foldl (fun a c => a * 10 + (c.toNat - 48)) 0

/-- Does `\s*cal` (case-insensitive) match at the start of the list? -/
def calTail (l : List Char) : Bool :=
  match l.dropWhile pySpace with
  | c1 :: c2 :: c3 :: _ => c1.toLower == 'c' && c2.toLower == 'a' && c3.toLower == 'l'
  | _ => false

/-- Scan left to right for the first position where `(\d+)\s*cal` matches;
return the value of the digit group. -/
def searchCalAux : List Char → Option Nat
  | [] => none
  | c :: rest =>
    if c.isDigit then
      if calTail ((c :: rest).dropWhile Char.isDigit) then
        some (digitsToNat ((c :: rest).takeWhile Char.isDigit))
      else searchCalAux rest
    else searchCalAux rest

/-- `_extract_calories`: calorie count from a meal description, `0` if the
pattern does not occur. -/
def extract_calories (text : List Char) : Nat :=
  (searchCalAux text).getD 0

/-! ## Data model for parsed plans -/

/-- One meal entry as built by `_parse_diet_response`
(a dict with keys `name`, `calories`, `ingredients`, `prep_time`). -/
structure MealInfo where
  name : String
  calories : Nat
  ingredients : List String
  prep_time : String
deriving DecidableEq

/-- The meals of one day: an insertion-ordered dict from meal-type key to meal. -/
abbrev DayMeals := List (String × MealInfo)

/-- A structured diet plan: an insertion-ordered dict from day key to meals. -/
abbrev DietPlan := List (String × DayMeals)

/-- Python dict assignment `d[k] = v` on an insertion-ordered association
list: overwrite in place when the key exists, append otherwise. -/
def setKey {α : Type} : List (String × α) → String → α → List (String × α)
  | [], k, v => [(k, v)]
  | (k', v') :: rest, k, v =>
    if k' == k then (k, v) :: rest else (k', v') :: setKey rest k v

/-! ## Fallback plans (`_get_fallback_diet_plan`, `_get_fallback_structured_plan`) -/

/-- The single hard-coded day of `_get_fallback_diet_plan`. -/
def fallback_day_template : DayMeals :=
  [("breakfast",
    { name := "PCOS-Friendly Oatmeal Bowl", calories := 350,
      ingredients := ["1/2 cup steel-cut oats", "1 tbsp almond butter",
                      "1/4 cup berries", "1 tsp cinnamon"],
      prep_time := "10 minutes" }),
   ("lunch",
    { name := "Quinoa Power Salad", calories := 450,
      ingredients := ["1/2 cup quinoa", "2 cups spinach", "1/4 cup chickpeas",
                      "1 tbsp olive oil", "lemon juice"],
      prep_time := "15 minutes" }),
   ("dinner",
    { name := "Grilled Salmon with Vegetables", calories := 500,
      ingredients := ["4 oz salmon", "1 cup broccoli", "1/2 cup sweet potato",
                      "herbs", "olive oil"],
      prep_time := "25 minutes" }),
   ("snack",
    { name := "Greek Yogurt with Nuts", calories := 200,
      ingredients := ["1/2 cup Greek yogurt", "1 tbsp walnuts", "1 tsp honey"],
      prep_time := "2 minutes" })]

/-- `_get_fallback_diet_plan(dietary_style, days)`: a dict with the single
key `"day_1"`.  Both parameters are accepted and ignored, exactly as in the
source (the body is one fixed literal). -/
def get_fallback_diet_plan (dietary_style : String) (days : Nat) : DietPlan :=
  [("day_1", fallback_day_template)]

/-- `_get_fallback_structured_plan(days)`:
`{f"day_{i+1}": base_plan["day_1"] for i in range(days)}` where
`base_plan = _get_fallback_diet_plan("mixed", 1)`. -/
def get_fallback_structured_plan (days : Nat) : DietPlan :=
  let base_plan := get_fallback_diet_plan "mixed" 1
  (List.range days).map
    (fun i => ("day_" ++ toString (i + 1), (base_plan.lookup "day_1").getD []))

/-! ## `_parse_diet_response` (utils/huggingface.py)

The line loop keeps two cursors, `current_day` and `current_meal`.  A day
header resets `current_day` (and opens a fresh empty entry) but leaves
`current_meal` untouched.  The assignments
`parsed_plan[current_day][current_meal][...] = …` raise `KeyError` when the
current meal key is not present under the current day; the surrounding
`try/except` then returns `_get_fallback_structured_plan(days)`.  A raised
exception is modelled by `none`. -/

/-- The meal markers tested against the uppercased line. -/
def meal_markers : List String := ["BREAKFAST:", "LUNCH:", "DINNER:", "SNACK:"]

/-- The mutable state of the parsing loop. -/
structure ParseState where
  parsed_plan : DietPlan
  current_day : Option String
  current_meal : Option String
deriving DecidableEq

/-- The initial state of the parsing loop. -/
def initState : ParseState := ⟨[], none, none⟩

/-- One iteration of the line loop of `_parse_diet_response`.
`none` models a raised `KeyError`. -/
def parse_line (st : ParseState) (rawLine : List Char) : Option ParseState :=
  let line := pyStrip rawLine
  if charsStartWith line "DAY ".data then
    let d := String.mk (pyReplace " ".data "_".data
                          (pyLowerChars (pyReplace ":".data [] line)))
    some { st with parsed_plan := setKey st.parsed_plan d [], current_day := some d }
  else if meal_markers.any (fun m => pyIn m.data (pyUpperChars line)) then
    let meal_parts := pySplit ":".data line
    if meal_parts.length ≥ 2 then
      let meal_type := String.mk (pyLowerChars (meal_parts.headD []))
      let meal_info := pyStrip (meal_parts.getD 1 [])
      match st.current_day with
      | some d =>
        match st.parsed_plan.lookup d with
        | none => none
        | some meals =>
          let mi : MealInfo :=
            { name := String.mk ((pySplit " - ".data meal_info).headD [])
              calories := extract_calories meal_info
              ingredients := []
              prep_time := "" }
          some { st with
                 parsed_plan := setKey st.parsed_plan d (setKey meals meal_type mi)
                 current_meal := some meal_type }
      | none => some st
    else some st
  else if charsStartWith line "Ingredients:".data then
    match st.current_day, st.current_meal with
    | some d, some m =>
      let ingredients :=
        (pySplit ",".data (pyStrip (pyReplace "Ingredients:".data [] line))).map
          (fun i => String.mk (pyStrip i))
      match st.parsed_plan.lookup d with
      | none => none
      | some meals =>
        match meals.lookup m with
        | none => none
        | some mi =>
          some { st with parsed_plan :=
                   setKey st.parsed_plan d (setKey meals m { mi with ingredients := ingredients }) }
    | _, _ => some st
  else if charsStartWith line "Prep time:".data then
    match st.current_day, st.current_meal with
    | some d, some m =>
      let prep := String.mk (pyStrip (pyReplace "Prep time:".data [] line))
      match st.parsed_plan.lookup d with
      | none => none
      | some meals =>
        match meals.lookup m with
        | none => none
        | some mi =>
          some { st with parsed_plan :=
                   setKey st.parsed_plan d (setKey meals m { mi with prep_time := prep }) }
    | _, _ => some st
  else some st

/-- The whole line loop; `none` propagates a raised exception. -/
def parse_lines : ParseState → List (List Char) → Option ParseState
  | st, [] => some st
  | st, l :: ls =>
    match parse_line st l with
    | none => none
    | some st' => parse_lines st' ls

/-- `_parse_diet_response(generated_text, days)`: run the loop over
`generated_text.split` on newline; on an exception return the structured
fallback plan. -/
def parse_diet_response (generated_text : String) (days : Nat) : DietPlan :=
  match parse_lines initState (pySplit "\n".data generated_text.data) with
  | some st => st.parsed_plan
  | none => get_fallback_structured_plan days

/-! ## `_generate_grocery_list` (utils/huggingface.py)

The source collects every ingredient into a Python `set`, then appends each
unique ingredient to the first of six keyword lists that matches (tested in
the fixed order proteins, vegetables, fruits, grains, dairy, pantry, via
case-insensitive substring containment), defaulting to pantry; `spices` is
initialised but never appended to.  Finally each category is deduplicated
(`list(set(...))`), blank entries are dropped, and empty categories are
omitted.  Python `set` iteration order is unspecified; the embedding
deduplicates keeping the first occurrence, so the *contents* of every
category agree with the source while the order within a category is one of
the orders the source may produce. -/

def protein_keywords : List String :=
  ["chicken", "fish", "salmon", "tuna", "eggs", "tofu", "lentils", "beans",
   "chickpeas", "quinoa"]

def vegetable_keywords : List String :=
  ["spinach", "kale", "broccoli", "cauliflower", "bell pepper", "zucchini",
   "cucumber", "tomato"]

def fruit_keywords : List String :=
  ["berries", "apple", "orange", "avocado", "lemon", "lime"]

def grain_keywords : List String :=
  ["oats", "brown rice", "quinoa", "whole wheat"]

def dairy_keywords : List String :=
  ["greek yogurt", "cottage cheese", "almond milk", "coconut milk"]

def pantry_keywords : List String :=
  ["olive oil", "nuts", "seeds", "vinegar", "honey"]

/-- `any(keyword in ingredient_lower for keyword in kws)`. -/
def matchesAny (kws : List String) (ingredient_lower : List Char) : Bool :=
  kws.any (fun k => pyIn k.data ingredient_lower)

/-- The accumulating `grocery_categories` dict (fixed keys). -/
structure GroceryAcc where
  proteins : List String
  vegetables : List String
  fruits : List String
  grains : List String
  dairy : List String
  pantry : List String
  spices : List String
deriving DecidableEq

/-- The empty `grocery_categories` dict. -/
def emptyGroceryAcc : GroceryAcc := ⟨[], [], [], [], [], [], []⟩

/-- The body of the categorisation loop: append `ingredient` to the first
matching category, defaulting to pantry. -/
def categorize_step (acc : GroceryAcc) (ingredient : String) : GroceryAcc :=
  let il := pyLowerChars ingredient.data
  if matchesAny protein_keywords il then
    { acc with proteins := acc.proteins ++ [ingredient] }
  else if matchesAny vegetable_keywords il then
    { acc with vegetables := acc.vegetables ++ [ingredient] }
  else if matchesAny fruit_keywords il then
    { acc with fruits := acc.fruits ++ [ingredient] }
  else if matchesAny grain_keywords il then
    { acc with grains := acc.grains ++ [ingredient] }
  else if matchesAny dairy_keywords il then
    { acc with dairy := acc.dairy ++ [ingredient] }
  else if matchesAny pantry_keywords il then
    { acc with pantry := acc.pantry ++ [ingredient] }
  else
    { acc with pantry := acc.pantry ++ [ingredient] }

/-- The category the loop assigns a given ingredient to (first match wins,
pantry when nothing matches). -/
def category_of (ingredient : String) : String :=
  let il := pyLowerChars ingredient.data
  if matchesAny protein_keywords il then "proteins"
  else if matchesAny vegetable_keywords il then "vegetables"
  else if matchesAny fruit_keywords il then "fruits"
  else if matchesAny grain_keywords il then "grains"
  else if matchesAny dairy_keywords il then "dairy"
  else if matchesAny pantry_keywords il then "pantry"
  else "pantry"

/-- Every ingredient of every meal of every day, in iteration order
(the source pours these into the `all_ingredients` set). -/
def plan_ingredients (diet_plan : DietPlan) : List String :=
  diet_plan.foldl
    (fun acc day => day.2.foldl (fun acc2 meal => acc2 ++ meal.2.ingredients) acc)
    []

/-- Deduplication keeping the first occurrence (deterministic stand-in for
a Python `set`, whose iteration order is unspecified). -/
def dedup_first (seen : List String) : List String → List String
  | [] => []
  | x :: xs =>
    if seen.contains x then dedup_first seen xs
    else x :: dedup_first (x :: seen) xs

/-- `_generate_grocery_list(diet_plan)`: categorise the unique ingredients,
deduplicate within each category, drop blank entries, omit empty
categories. -/
def generate_grocery_list (diet_plan : DietPlan) : List (String × List String) :=
  let all_ingredients := dedup_first [] (plan_ingredients diet_plan)
  let acc := all_ingredients.foldl categorize_step emptyGroceryAcc
  let cats : List (String × List String) :=
    [("proteins", acc.proteins), ("vegetables", acc.vegetables),
     ("fruits", acc.fruits), ("grains", acc.grains), ("dairy", acc.dairy),
     ("pantry", acc.pantry), ("spices", acc.spices)]
  (cats.map (fun c =>
      (c.1, (dedup_first [] c.2).filter (fun item => !(pyStrip item.data).isEmpty)))).filter
    (fun c => !c.2.isEmpty)

/-! ## `generate_diet_plan` (the orchestrator, utils/huggingface.py)

The outbound call and the clock are the only non-determinism, so the
orchestrator is embedded as a function of the call outcome and of the
timestamp string.  `errorDict` is `query_model` returning a dict containing
`"error"` (its internal `except requests.exceptions.RequestException`
path); `generated text` is a successful call with `text` the extracted
`generated_text`; `raised` is an exception escaping inside the outer `try`
(caught by `except Exception`, whose message becomes the `error` field). -/

/-- User preferences as extracted by the orchestrator.  The enumerated
fields of the pydantic model are embedded as strings; validation bounds
are stated separately in `DietPreferences.valid`. -/
structure DietPreferences where
  dietary_style : String
  calorie_goal : Nat
  days : Nat
  allergies : List String
  symptoms : List String
  cuisine : String
  budget : String
  avoid_foods : List String
  preferred_foods : List String
deriving DecidableEq

/-- The pydantic bounds: `calorie_goal` in 1200–3000, `days` in 1–14. -/
def DietPreferences.valid (p : DietPreferences) : Prop :=
  1200 ≤ p.calorie_goal ∧ p.calorie_goal ≤ 3000 ∧ 1 ≤ p.days ∧ p.days ≤ 14

/-- Outcome of the single outbound model call, as seen inside the `try`. -/
inductive ModelCallOutcome
  | errorDict (msg : String)
  | generated (text : String)
  | raised (msg : String)
deriving DecidableEq

/-- The envelope returned by `generate_diet_plan`; `none` models an absent
dict key. -/
structure DietPlanResult where
  success : Bool
  diet_plan : Option DietPlan
  user_preferences : Option DietPreferences
  generated_at : Option String
  grocery_list : Option (List (String × List String))
  error : Option String
  fallback_plan : Option DietPlan
deriving DecidableEq

/-- `generate_diet_plan(user_preferences)` as a function of the model-call
outcome and the timestamp. -/
def generate_diet_plan (prefs : DietPreferences) (outcome : ModelCallOutcome)
    (now : String) : DietPlanResult :=
  match outcome with
  | .errorDict _ =>
    { success := false, diet_plan := none, user_preferences := none,
      generated_at := none, grocery_list := none,
      error := some "Unable to generate diet plan at the moment. Please try again.",
      fallback_plan := some (get_fallback_diet_plan prefs.dietary_style prefs.days) }
  | .generated text =>
    let structured_plan := parse_diet_response text prefs.days
    { success := true, diet_plan := some structured_plan,
      user_preferences := some prefs, generated_at := some now,
      grocery_list := some (generate_grocery_list structured_plan),
      error := none, fallback_plan := none }
  | .raised msg =>
    { success := false, diet_plan := none, user_preferences := none,
      generated_at := none, grocery_list := none, error := some msg,
      fallback_plan := some (get_fallback_diet_plan prefs.dietary_style prefs.days) }

/-! ## Persistence routes (routes/diet.py)

The document store is a list of saved-plan records; `find_one` is the first
record matching the filter, `update_one` updates the first record matching
the filter.  Both `get_diet_plan` and `delete_diet_plan` raise their
`HTTPException(404, "Diet plan not found")` *inside* the `try` block whose
`except Exception` clause catches every `Exception` — and the FastAPI
`HTTPException` is an `Exception` — so the 404 is re-wrapped into the
500 `server_error` outcome.  There is no reachable plain 404 outcome. -/

/-- A document of the `diet_plans` collection. -/
structure SavedPlanRecord where
  oid : String
  user_id : String
  plan_name : String
  diet_plan : DietPlan
  preferences : DietPreferences
  grocery_list : List (String × List String)
  created_at : Nat
  is_active : Bool
deriving DecidableEq

/-- Outcome of a route handler: a 200 payload, or the 500 raised by the
`except Exception` clause. -/
inductive RouteResult (α : Type)
  | ok (value : α)
  | server_error (detail : String)
deriving DecidableEq

/-- `GET /diet/plan/{plan_id}`: `find_one({_id, user_id, is_active: True})`;
when nothing matches, the raised 404 is swallowed by the handler via its own
`except Exception` and surfaces as a 500 whose detail wraps `str(e)`. -/
def get_diet_plan (store : List SavedPlanRecord) (plan_id user : String) :
    RouteResult SavedPlanRecord :=
  match store.find? (fun r => r.oid == plan_id && r.user_id == user && r.is_active) with
  | some plan => .ok plan
  | none => .server_error "Error retrieving diet plan: 404: Diet plan not found"

/-- `update_one({_id, user_id}, {$set: {is_active: False}})`: deactivate the
first matching record; also return `matched_count`. -/
def update_one_set_inactive : List SavedPlanRecord → String → String →
    List SavedPlanRecord × Nat
  | [], _, _ => ([], 0)
  | r :: rest, plan_id, user =>
    if r.oid == plan_id && r.user_id == user then
      ({ r with is_active := false } :: rest, 1)
    else
      let res := update_one_set_inactive rest plan_id user
      (r :: res.1, res.2)

/-- `DELETE /diet/plan/{plan_id}` (soft delete): returns the updated store
and the handler outcome; the zero-match 404 is swallowed into a 500 just as
in `get_diet_plan`. -/
def delete_diet_plan (store : List SavedPlanRecord) (plan_id user : String) :
    List SavedPlanRecord × RouteResult String :=
  let res := update_one_set_inactive store plan_id user
  if res.2 == 0 then
    (res.1, .server_error "Error deleting diet plan: 404: Diet plan not found")
  else
    (res.1, .ok "Diet plan deleted successfully")

/-- Stable-enough insertion into a list sorted by `created_at` descending
(the relative order of equal timestamps is irrelevant to every property
stated below). -/
def insert_desc (r : SavedPlanRecord) : List SavedPlanRecord → List SavedPlanRecord
  | [] => [r]
  | x :: xs =>
    if r.created_at ≥ x.created_at then r :: x :: xs
    else x :: insert_desc r xs

/-- Sort by `created_at` descending (MongoDB `.sort("created_at", -1)`). -/
def sort_by_created_desc : List SavedPlanRecord → List SavedPlanRecord
  | [] => []
  | r :: rest => insert_desc r (sort_by_created_desc rest)

/-- `GET /diet/my-plans`: the active plans of the caller, newest first, capped at
100 (`to_list(length=100)`). -/
def get_my_diet_plans (store : List SavedPlanRecord) (user : String) :
    List SavedPlanRecord :=
  (sort_by_created_desc
    (store.filter (fun r => r.user_id == user && r.is_active))).take 100

/-! ## Concrete fixtures used by individual claims -/

/-- A plan whose only ingredients are the five of the categoriser test. -/
def groceryTestPlan : DietPlan :=
  [("day_1", [("breakfast",
    { name := "Test Meal", calories := 0,
      ingredients := ["chicken breast", "spinach", "quinoa", "olive oil",
                      "random herb xyz"],
      prep_time := "" })])]

/-- A one-record store owned by user `alice` (plan id `p1`). -/
def ownershipStore : List SavedPlanRecord :=
  [{ oid := "p1", user_id := "alice", plan_name := "My plan", diet_plan := [],
     preferences := ⟨"vegetarian", 1800, 7, [], [], "mixed", "moderate", [], []⟩,
     grocery_list := [], created_at := 5, is_active := true }]

/-- A plan record of user `alice` used by the soft-delete claim. -/
def softDeleteRec : SavedPlanRecord :=
  { oid := "p1", user_id := "alice", plan_name := "Week one", diet_plan := [],
    preferences := ⟨"vegetarian", 1800, 7, [], [], "mixed", "moderate", [], []⟩,
    grocery_list := [], created_at := 5, is_active := true }

/-- A two-record store used by the soft-delete claim. -/
def softDeleteStore : List SavedPlanRecord :=
  [softDeleteRec,
   { oid := "p2", user_id := "alice", plan_name := "Week two", diet_plan := [],
     preferences := ⟨"vegan", 1500, 3, [], [], "mixed", "low", [], []⟩,
     grocery_list := [], created_at := 9, is_active := true }]

/-! ## Helper lemmas -/

/-- `lookup` misses a key that no pair of the list carries. -/
theorem lookup_eq_none_of_ne {β : Type} (k : String) :
    ∀ (l : List (String × β)), (∀ p ∈ l, p.1 ≠ k) → l.lookup k = none := by
  intro l
  induction l with
  | nil => intro _; rfl
  | cons p ps ih =>
    intro h
    obtain ⟨a, b⟩ := p
    have ha : a ≠ k := h (a, b) (by simp)
    have hk : (k == a) = false := beq_eq_false_iff_ne.mpr (fun e => ha e.symm)
    simpa [List.lookup, hk] using ih (fun q hq => h q (by simp [hq]))

/-- Deduplication only keeps elements of the input. -/
theorem mem_dedup_first {x : String} :
    ∀ (seen l : List String), x ∈ dedup_first seen l → x ∈ l := by
  intro seen l
  induction l generalizing seen with
  | nil => intro h; exact absurd h (by simp [dedup_first])
  | cons y ys ih =>
    intro h
    unfold dedup_first at h
    by_cases hc : seen.contains y = true
    · simp only [hc, if_true] at h
      exact List.mem_cons_of_mem _ (ih seen h)
    · simp only [hc, if_false] at h
      rcases List.mem_cons.mp h with h1 | h2
      · exact h1 ▸ List.mem_cons_self _ _
      · exact List.mem_cons_of_mem _ (ih (y :: seen) h2)

/-- One categorisation step, described through `category_of`. -/
theorem categorize_step_eq (acc : GroceryAcc) (x : String) :
    categorize_step acc x =
      { proteins := acc.proteins ++ if category_of x == "proteins" then [x] else []
        vegetables := acc.vegetables ++ if category_of x == "vegetables" then [x] else []
        fruits := acc.fruits ++ if category_of x == "fruits" then [x] else []
        grains := acc.grains ++ if category_of x == "grains" then [x] else []
        dairy := acc.dairy ++ if category_of x == "dairy" then [x] else []
        pantry := acc.pantry ++ if category_of x == "pantry" then [x] else []
        spices := acc.spices } := by
  unfold categorize_step category_of
  repeat' split <;> simp_all

/-- The whole categorisation loop, described through `category_of`: each
category collects, in input order, exactly the ingredients it is the first
match for; `spices` never receives anything. -/
theorem foldl_categorize (l : List String) (acc : GroceryAcc) :
    l.foldl categorize_step acc =
      { proteins := acc.proteins ++ l.filter (fun i => category_of i == "proteins")
        vegetables := acc.vegetables ++ l.filter (fun i => category_of i == "vegetables")
        fruits := acc.fruits ++ l.filter (fun i => category_of i == "fruits")
        grains := acc.grains ++ l.filter (fun i => category_of i == "grains")
        dairy := acc.dairy ++ l.filter (fun i => category_of i == "dairy")
        pantry := acc.pantry ++ l.filter (fun i => category_of i == "pantry")
        spices := acc.spices } := by
  induction l generalizing acc with
  | nil => simp
  | cons x xs ih =>
    rw [List.foldl_cons, ih, categorize_step_eq]
    simp only [List.filter_cons]
    refine GroceryAcc.mk.injEq .. ▸ ?_
    repeat' constructor <;> split <;> simp [List.append_assoc]

/-- Membership is preserved by descending insertion. -/
theorem mem_insert_desc {x r : SavedPlanRecord} :
    ∀ {l : List SavedPlanRecord}, x ∈ insert_desc r l ↔ x = r ∨ x ∈ l := by
  intro l
  induction l with
  | nil => simp [insert_desc]
  | cons y ys ih =>
    unfold insert_desc
    split
    · simp
    · simp [ih]
      tauto

/-- Membership is preserved by the descending sort. -/
theorem mem_sort_desc {x : SavedPlanRecord} :
    ∀ {l : List SavedPlanRecord}, x ∈ sort_by_created_desc l ↔ x ∈ l := by
  intro l
  induction l with
  | nil => simp [sort_by_created_desc]
  | cons y ys ih => simp [sort_by_created_desc, mem_insert_desc, ih]

/-- Every record the my-plans listing returns belongs to the requesting
user and is active. -/
theorem get_my_diet_plans_sound (store : List SavedPlanRecord) (user : String) :
    ∀ x ∈ get_my_diet_plans store user, x.user_id = user ∧ x.is_active = true := by
  intro x hx
  unfold get_my_diet_plans at hx
  have h1 := List.mem_of_mem_take hx
  have h2 := mem_sort_desc.mp h1
  have h3 := List.mem_filter.mp h2
  have h4 := h3.2
  simp only [Bool.and_eq_true, beq_iff_eq] at h4
  exact h4

/-- `update_one` on a store whose first matching record is `r`: one match,
the deactivated copy of `r` is in the updated store, and the store size is
unchanged. -/
theorem update_one_found (pid uid : String) (r : SavedPlanRecord) :
    ∀ (store : List SavedPlanRecord),
      store.find? (fun x => x.oid == pid && x.user_id == uid) = some r →
      (update_one_set_inactive store pid uid).2 = 1 ∧
      { r with is_active := false } ∈ (update_one_set_inactive store pid uid).1 ∧
      (update_one_set_inactive store pid uid).1.length = store.length := by
  intro store
  induction store with
  | nil => intro hfind; simp [List.find?] at hfind
  | cons y ys ih =>
    intro hfind
    by_cases h : (y.oid == pid && y.user_id == uid) = true
    · rw [List.find?_cons_of_pos ys h] at hfind
      obtain rfl : y = r := Option.some.inj hfind
      simp [update_one_set_inactive, h]
    · rw [List.find?_cons_of_neg ys h] at hfind
      obtain ⟨h1, h2, h3⟩ := ih hfind
      refine ⟨?_, ?_, ?_⟩ <;>
        simp [update_one_set_inactive, h, h1, h2, h3]

/-- A line that (after stripping) does not start with `DAY ` leaves a state
with no current day unchanged. -/
theorem parse_line_no_day (st : ParseState) (l : List Char)
    (hday : charsStartWith (pyStrip l) "DAY ".data = false)
    (hst : st.current_day = none) :
    parse_line st l = some st := by
  unfold parse_line
  simp only [hday, Bool.false_eq_true, if_false, hst]
  repeat' split <;> simp_all

/-- A text none of whose (stripped) lines starts with `DAY ` drives the
whole loop from the initial state back to the initial state. -/
theorem parse_lines_no_day :
    ∀ (lines : List (List Char)),
      (∀ l ∈ lines, charsStartWith (pyStrip l) "DAY ".data = false) →
      parse_lines initState lines = some initState := by
  intro lines
  induction lines with
  | nil => intro _; rfl
  | cons l ls ih =>
    intro h
    have h0 : parse_line initState l = some initState :=
      parse_line_no_day initState l (h l (by simp)) rfl
    simp only [parse_lines, h0]
    exact ih (fun x hx => h x (by simp [hx]))

/-! ## Claims -/

/-- Claim C5: every result of `generate_diet_plan` satisfies the envelope
invariant — success implies `diet_plan` and `grocery_list` present and
`error`/`fallback_plan` absent; failure implies `error` and `fallback_plan`
present and no full `diet_plan` alongside. -/
theorem C5_result_envelope_invariant (prefs : DietPreferences)
    (outcome : ModelCallOutcome) (now : String) :
    ((generate_diet_plan prefs outcome now).success = true →
      (generate_diet_plan prefs outcome now).diet_plan.isSome = true ∧
      (generate_diet_plan prefs outcome now).grocery_list.isSome = true ∧
      (generate_diet_plan prefs outcome now).error = none ∧
      (generate_diet_plan prefs outcome now).fallback_plan = none) ∧
    ((generate_diet_plan prefs outcome now).success = false →
      (generate_diet_plan prefs outcome now).error.isSome = true ∧
      (generate_diet_plan prefs outcome now).fallback_plan.isSome = true ∧
      (generate_diet_plan prefs outcome now).diet_plan = none) := by
  cases outcome <;> simp [generate_diet_plan]

/-- Claim C5 witness: both sides of the invariant at concrete inputs. -/
theorem C5_result_envelope_invariant_witness :
    ((generate_diet_plan ⟨"vegetarian", 1800, 7, [], [], "mixed", "moderate", [], []⟩
        (.generated "") "t").diet_plan.isSome = true ∧
     (generate_diet_plan ⟨"vegetarian", 1800, 7, [], [], "mixed", "moderate", [], []⟩
        (.generated "") "t").grocery_list.isSome = true ∧
     (generate_diet_plan ⟨"vegetarian", 1800, 7, [], [], "mixed", "moderate", [], []⟩
        (.generated "") "t").error = none ∧
     (generate_diet_plan ⟨"vegetarian", 1800, 7, [], [], "mixed", "moderate", [], []⟩
        (.generated "") "t").fallback_plan = none) ∧
    ((generate_diet_plan ⟨"vegan", 1500, 3, [], [], "mixed", "low", [], []⟩
        (.errorDict "boom") "t").error.isSome = true ∧
     (generate_diet_plan ⟨"vegan", 1500, 3, [], [], "mixed", "low", [], []⟩
        (.errorDict "boom") "t").fallback_plan.isSome = true ∧
     (generate_diet_plan ⟨"vegan", 1500, 3, [], [], "mixed", "low", [], []⟩
        (.errorDict "boom") "t").diet_plan = none) :=
  ⟨(C5_result_envelope_invariant ⟨"vegetarian", 1800, 7, [], [], "mixed", "moderate", [], []⟩
      (.generated "") "t").1 (by decide),
   (C5_result_envelope_invariant ⟨"vegan", 1500, 3, [], [], "mixed", "low", [], []⟩
      (.errorDict "boom") "t").2 (by decide)⟩

/-- Claim C6: parsing the exact text
`DAY 1:\nBREAKFAST: Oats - 300cal\nIngredients: oats, milk\n` yields the
single-day, single-meal plan with name `Oats`, 300 calories, ingredients
`oats` and `milk`, and empty prep time (for any requested day count, which
only matters on the exception path). -/
theorem C6_parser_partial_success (days : Nat) :
    parse_diet_response "DAY 1:\nBREAKFAST: Oats - 300cal\nIngredients: oats, milk\n" days =
      [("day_1", [("breakfast",
        { name := "Oats", calories := 300, ingredients := ["oats", "milk"],
          prep_time := "" })])] := by
  have h : parse_lines initState
      (pySplit "\n".data "DAY 1:\nBREAKFAST: Oats - 300cal\nIngredients: oats, milk\n".data) =
      some ⟨[("day_1", [("breakfast",
        { name := "Oats", calories := 300, ingredients := ["oats", "milk"],
          prep_time := "" })])], some "day_1", some "breakfast"⟩ := by decide
  unfold parse_diet_response
  rw [h]

/-- Claim C9: no grocery list ever carries the key `spices` — the loop never
appends to that category and empty categories are omitted. -/
theorem C9_spices_never_assigned (plan : DietPlan) :
    (generate_grocery_list plan).lookup "spices" = none := by
  apply lookup_eq_none_of_ne
  intro p hp
  simp only [generate_grocery_list, foldl_categorize, emptyGroceryAcc,
    List.map_cons, List.map_nil] at hp
  obtain ⟨hmem, hcond⟩ := List.mem_filter.mp hp
  simp only [List.mem_cons, List.not_mem_nil, or_false] at hmem
  rcases hmem with rfl | rfl | rfl | rfl | rfl | rfl | rfl <;>
    simp_all [dedup_first]

/-- Claim C10: a day header resets the current-day cursor but not the
current-meal cursor; when an `Ingredients:` line directly follows a later
day header while the meal cursor still points at a meal of an earlier day,
the resulting `KeyError` makes the parser discard everything parsed so far
and return the replicated fallback plan for the full requested day count,
not a partial plan of the well-formed days. -/
theorem C10_day_header_keeps_meal_cursor :
    parse_lines initState (pySplit "\n".data "DAY 1:\nBREAKFAST: Eggs - 200cal\nDAY 2:".data) =
      some ⟨[("day_1", [("breakfast",
          { name := "Eggs", calories := 200, ingredients := [], prep_time := "" })]),
         ("day_2", [])], some "day_2", some "breakfast"⟩ ∧
    parse_lines initState
      (pySplit "\n".data "DAY 1:\nBREAKFAST: Eggs - 200cal\nDAY 2:\nIngredients: oats".data) =
      none ∧
    parse_diet_response "DAY 1:\nBREAKFAST: Eggs - 200cal\nDAY 2:\nIngredients: oats" 4 =
      get_fallback_structured_plan 4 ∧
    get_fallback_structured_plan 4 ≠
      [("day_1", [("breakfast",
          { name := "Eggs", calories := 200, ingredients := [], prep_time := "" })]),
       ("day_2", [])] := by
  refine ⟨by decide, by decide, ?_, by decide⟩
  have h : parse_lines initState
      (pySplit "\n".data "DAY 1:\nBREAKFAST: Eggs - 200cal\nDAY 2:\nIngredients: oats".data) =
      none := by decide
  unfold parse_diet_response
  rw [h]

/-- Claim C7: the response parser never raises — a text none of whose
(stripped, as the parser strips each line before testing) lines starts with
`DAY ` parses to the empty plan, and an internal exception is converted
into the fallback-shaped structured plan for the requested day count
instead of propagating. -/
theorem C7_parser_never_raises (text : String) (days : Nat) :
    ((∀ l ∈ pySplit "\n".data text.data,
        charsStartWith (pyStrip l) "DAY ".data = false) →
      parse_diet_response text days = []) ∧
    (parse_lines initState (pySplit "\n".data text.data) = none →
      parse_diet_response text days = get_fallback_structured_plan days) := by
  constructor
  · intro h
    unfold parse_diet_response
    rw [parse_lines_no_day _ h]
    rfl
  · intro h
    unfold parse_diet_response
    rw [h]

/-- Claim C7 witness: both parts at concrete inputs — a text without day
headers parses to the empty plan, and a text that makes the loop raise
parses to the structured fallback. -/
theorem C7_parser_never_raises_witness :
    parse_diet_response "hello\nthere are no day headers here" 2 = [] ∧
    parse_diet_response "DAY 1:\nLUNCH: Soup - 100cal\nDAY 2:\nIngredients: rice" 3 =
      get_fallback_structured_plan 3 :=
  ⟨(C7_parser_never_raises "hello\nthere are no day headers here" 2).1 (by decide),
   (C7_parser_never_raises "DAY 1:\nLUNCH: Soup - 100cal\nDAY 2:\nIngredients: rice" 3).2
     (by decide)⟩

/-- Claim C1 counterexample: for the valid preferences with days = 2 and a
model call that succeeds with empty generated text, the envelope has
success = true but its diet plan is empty — it does not contain the keys
`day_1` and `day_2` — and no fallback is present, so neither disjunct of
the claim holds at this input. -/
theorem C1_counterexample :
    (generate_diet_plan ⟨"vegetarian", 1800, 2, [], [], "mixed", "moderate", [], []⟩
        (.generated "") "t").success = true ∧
    (((generate_diet_plan ⟨"vegetarian", 1800, 2, [], [], "mixed", "moderate", [], []⟩
        (.generated "") "t").diet_plan.getD []).map Prod.fst).toFinset ≠
      ({"day_1", "day_2"} : Finset String) := by
  refine ⟨by decide, ?_⟩
  decide

/-- Claim C1 (amended): for every valid preferences and every model-call
outcome, the envelope either has success = true with a diet plan present
(whose day keys are determined by the parsed text and may be fewer than
`days`, or none at all), or success = false with a non-empty fallback plan;
the two payloads are never both absent. -/
theorem C1_amended_generate_envelope (prefs : DietPreferences)
    (outcome : ModelCallOutcome) (now : String) (hv : prefs.valid) :
    ((generate_diet_plan prefs outcome now).success = true ∧
      (generate_diet_plan prefs outcome now).diet_plan.isSome = true) ∨
    ((generate_diet_plan prefs outcome now).success = false ∧
      (generate_diet_plan prefs outcome now).fallback_plan.isSome = true ∧
      (generate_diet_plan prefs outcome now).fallback_plan.getD [] ≠ []) := by
  cases outcome <;> simp [generate_diet_plan, get_fallback_diet_plan]

/-- Claim C1 witness: the amended envelope dichotomy at a concrete valid
preference record and a failing model call. -/
theorem C1_amended_generate_envelope_witness :
    ((generate_diet_plan ⟨"omnivore", 2000, 5, [], [], "asian", "high", [], []⟩
        (.errorDict "upstream") "t").success = true ∧
      (generate_diet_plan ⟨"omnivore", 2000, 5, [], [], "asian", "high", [], []⟩
        (.errorDict "upstream") "t").diet_plan.isSome = true) ∨
    ((generate_diet_plan ⟨"omnivore", 2000, 5, [], [], "asian", "high", [], []⟩
        (.errorDict "upstream") "t").success = false ∧
      (generate_diet_plan ⟨"omnivore", 2000, 5, [], [], "asian", "high", [], []⟩
        (.errorDict "upstream") "t").fallback_plan.isSome = true ∧
      (generate_diet_plan ⟨"omnivore", 2000, 5, [], [], "asian", "high", [], []⟩
        (.errorDict "upstream") "t").fallback_plan.getD [] ≠ []) :=
  C1_amended_generate_envelope ⟨"omnivore", 2000, 5, [], [], "asian", "high", [], []⟩
    (.errorDict "upstream") "t" (by constructor <;> simp)

/-- Claim C2 counterexample: for requested day count 3, the fallback plan
placed in the failure envelope has the single key `day_1`, not the three
keys `day_1`, `day_2`, `day_3` the claim requires. -/
theorem C2_counterexample :
    (generate_diet_plan ⟨"vegetarian", 1800, 3, [], [], "mixed", "moderate", [], []⟩
        (.errorDict "e") "t").fallback_plan = some [("day_1", fallback_day_template)] ∧
    (((generate_diet_plan ⟨"vegetarian", 1800, 3, [], [], "mixed", "moderate", [], []⟩
        (.errorDict "e") "t").fallback_plan.getD []).map Prod.fst).toFinset ≠
      ({"day_1", "day_2", "day_3"} : Finset String) := by
  decide

/-- Claim C2 (amended): the substitute plan used when parsing throws
(`_get_fallback_structured_plan`) has exactly the keys `day_1`..`day_N`,
each an identical copy of the fixed day template; the `fallback_plan` of
the failure envelope, however, is `_get_fallback_diet_plan`, which ignores
the requested day count and always contains exactly the single key `day_1`
mapped to that same template. -/
theorem C2_amended_fallback_shapes (days : Nat) :
    ((get_fallback_structured_plan days).map Prod.fst =
        (List.range days).map (fun i => "day_" ++ toString (i + 1)) ∧
      ∀ e ∈ get_fallback_structured_plan days, e.2 = fallback_day_template) ∧
    ∀ (prefs : DietPreferences) (msg now : String),
      (generate_diet_plan prefs (.errorDict msg) now).fallback_plan =
        some [("day_1", fallback_day_template)] := by
  refine ⟨⟨?_, ?_⟩, ?_⟩
  · simp [get_fallback_structured_plan, List.map_map, Function.comp]
  · intro e he
    simp only [get_fallback_structured_plan, List.mem_map] at he
    obtain ⟨i, _, rfl⟩ := he
    show (List.lookup "day_1" (get_fallback_diet_plan "mixed" 1)).getD [] = fallback_day_template
    decide
  · intro prefs msg now
    simp [generate_diet_plan, get_fallback_diet_plan]

/-- Claim C2 witness: the amended shapes at concrete inputs — a member of
the 3-day structured fallback carries the template, and a concrete failure
envelope carries the one-day fallback. -/
theorem C2_amended_fallback_shapes_witness :
    ("day_2", fallback_day_template).2 = fallback_day_template ∧
    (generate_diet_plan ⟨"vegan", 1500, 5, [], [], "mixed", "low", [], []⟩
        (.errorDict "e") "t").fallback_plan = some [("day_1", fallback_day_template)] :=
  ⟨(C2_amended_fallback_shapes 3).1.2 ("day_2", fallback_day_template) (by decide),
   (C2_amended_fallback_shapes 5).2 ⟨"vegan", 1500, 5, [], [], "mixed", "low", [], []⟩ "e" "t"⟩

/-- Claim C3 counterexample: on the five-ingredient test plan the grocery
list has no `grains` category at all, and `quinoa` lands in `proteins`
(the protein keyword list contains `quinoa` and is tested first), contrary
to the claimed `proteins = [chicken breast]`, `grains = [quinoa]`. -/
theorem C3_counterexample :
    (generate_grocery_list groceryTestPlan).lookup "grains" = none ∧
    "quinoa" ∈ ((generate_grocery_list groceryTestPlan).lookup "proteins").getD [] := by
  decide

/-- Claim C3 (amended): on the five-ingredient test plan the categoriser
returns exactly proteins = {chicken breast, quinoa}, vegetables =
{spinach}, pantry = {olive oil, random herb xyz}, every other category
absent; in general every ingredient of every returned category is assigned
by first match over the ordered keyword lists (proteins, vegetables,
fruits, grains, dairy, pantry), defaulting to pantry. -/
theorem C3_amended_categorizer :
    ((generate_grocery_list groceryTestPlan).map (fun c => (c.1, c.2.toFinset)) =
      [("proteins", {"chicken breast", "quinoa"}),
       ("vegetables", {"spinach"}),
       ("pantry", {"olive oil", "random herb xyz"})]) ∧
    (∀ (plan : DietPlan) (cat : String) (items : List String) (x : String),
      (cat, items) ∈ generate_grocery_list plan → x ∈ items → category_of x = cat) := by
  refine ⟨by decide, ?_⟩
  intro plan cat items x hmem hx
  simp only [generate_grocery_list, foldl_categorize, emptyGroceryAcc,
    List.map_cons, List.map_nil, List.nil_append] at hmem
  obtain ⟨hm, _⟩ := List.mem_filter.mp hmem
  simp only [List.mem_cons, List.not_mem_nil, or_false, Prod.mk.injEq] at hm
  rcases hm with ⟨rfl, rfl⟩ | ⟨rfl, rfl⟩ | ⟨rfl, rfl⟩ | ⟨rfl, rfl⟩ | ⟨rfl, rfl⟩ |
    ⟨rfl, rfl⟩ | ⟨rfl, rfl⟩ <;>
  first
    | exact beq_iff_eq.mp
        ((List.mem_filter.mp (mem_dedup_first _ _ (List.mem_filter.mp hx).1)).2)
    | simp [dedup_first] at hx

/-- Claim C3 witness: the general first-match rule applied at a concrete
category membership of the test plan. -/
theorem C3_amended_categorizer_witness : category_of "spinach" = "vegetables" :=
  C3_amended_categorizer.2 groceryTestPlan "vegetables" ["spinach"] "spinach"
    (by decide) (by decide)

/-- Claim C4: evaluating the routes at the failing input — the store holds
the plan `p1` of user `alice`; caller `bob` requests and deletes it.  Both
handlers raise their 404 inside the `try` whose `except Exception` catches
it, so the outcome is a 500 server error wrapping the not-found message,
not the claimed plain not-found outcome; the plan data is not returned
(the owner, by contrast, receives it), and the mismatch delete leaves the
store unchanged. -/
theorem C4_ownership_mismatch_surfaces_as_500 :
    get_diet_plan ownershipStore "p1" "bob" =
      .server_error "Error retrieving diet plan: 404: Diet plan not found" ∧
    (delete_diet_plan ownershipStore "p1" "bob").2 =
      .server_error "Error deleting diet plan: 404: Diet plan not found" ∧
    (delete_diet_plan ownershipStore "p1" "bob").1 = ownershipStore ∧
    get_diet_plan ownershipStore "p1" "alice" =
      .ok { oid := "p1", user_id := "alice", plan_name := "My plan", diet_plan := [],
            preferences := ⟨"vegetarian", 1800, 7, [], [], "mixed", "moderate", [], []⟩,
            grocery_list := [], created_at := 5, is_active := true } := by
  decide

/-- Claim C8: soft delete changes only the `is_active` flag — when the
first record matching the id/owner filter is `r`, the delete succeeds, the
store afterwards contains `r` with `is_active` flipped to `false` and all
other fields unchanged, the store size is unchanged, the my-plans listing
returns only records of the caller with `is_active = true`, and the
deactivated record no longer appears in that listing. -/
theorem C8_soft_delete_frame (store : List SavedPlanRecord) (pid uid : String)
    (r : SavedPlanRecord)
    (hfind : store.find? (fun x => x.oid == pid && x.user_id == uid) = some r) :
    (delete_diet_plan store pid uid).2 = .ok "Diet plan deleted successfully" ∧
    { r with is_active := false } ∈ (delete_diet_plan store pid uid).1 ∧
    ((delete_diet_plan store pid uid).1).length = store.length ∧
    (∀ x ∈ get_my_diet_plans (delete_diet_plan store pid uid).1 uid,
        x.user_id = uid ∧ x.is_active = true) ∧
    { r with is_active := false } ∉ get_my_diet_plans (delete_diet_plan store pid uid).1 uid := by
  obtain ⟨h1, h2, h3⟩ := update_one_found pid uid r store hfind
  have hdel : delete_diet_plan store pid uid =
      ((update_one_set_inactive store pid uid).1, .ok "Diet plan deleted successfully") := by
    simp [delete_diet_plan, h1]
  refine ⟨by rw [hdel], ?_, ?_, ?_, ?_⟩
  · rw [hdel]
    exact h2
  · rw [hdel]
    exact h3
  · rw [hdel]
    exact get_my_diet_plans_sound _ uid
  · rw [hdel]
    intro hmem
    have hact := (get_my_diet_plans_sound _ uid _ hmem).2
    simp at hact

/-- Claim C8 witness: the frame conditions at a concrete two-plan store of
user `alice` after deleting plan `p1`. -/
theorem C8_soft_delete_frame_witness :
    (delete_diet_plan softDeleteStore "p1" "alice").2 = .ok "Diet plan deleted successfully" ∧
    { softDeleteRec with is_active := false } ∈ (delete_diet_plan softDeleteStore "p1" "alice").1 ∧
    ((delete_diet_plan softDeleteStore "p1" "alice").1).length = softDeleteStore.length ∧
    (∀ x ∈ get_my_diet_plans (delete_diet_plan softDeleteStore "p1" "alice").1 "alice",
        x.user_id = "alice" ∧ x.is_active = true) ∧
    { softDeleteRec with is_active := false } ∉
      get_my_diet_plans (delete_diet_plan softDeleteStore "p1" "alice").1 "alice" :=
  C8_soft_delete_frame softDeleteStore "p1" "alice" softDeleteRec (by decide)
